import Mathlib

/-!
Verification development for the module scheduling and collection pipeline of
the status-bar program (src/src/config.rs, src/src/collectors.rs).

Conventions of the shallow embedding:
* timestamps (`chrono::DateTime<Local>`) and durations (`chrono::Duration`
  inside `FancyDuration`) are modelled as `Int` in a single fixed unit
  (milliseconds); `last_updated + interval < now` carries over verbatim;
* `f64` values are modelled by `F64`: an exact rational together with the
  IEEE special values NaN and plus or minus infinity.  The model computes the
  exact result of each source operation; it agrees with IEEE double arithmetic
  at every point at which a theorem below evaluates it (all such points are
  exactly representable, e.g. 4e9 / 8e9 = 0.5);
* an unbounded mpsc channel is modelled by the list of messages sent on it
  during one call; `Result<(), anyhow::Error>` becomes `Except String Unit`;
* system-information providers (mprober_lib) are out of scope (spec section 1
  and 6): each collector takes the provider's answer as an explicit
  `Except String` argument;
* a Rust panic point (`Option::unwrap`) is modelled by returning `Option`.
-/

/-- IEEE binary64 values as exact rationals plus the special values produced
by the divisions in the source.  Operations compute the mathematically exact
result on `val`; rounding of inexact results is not modelled, and every
theorem below evaluates `F64` only at exactly representable points. -/
inductive F64 where
  | val (q : ℚ)
  | nan
  | inf
  | neginf
deriving DecidableEq

/-- IEEE addition on the model (used by the cpu fold). -/
def F64.add : F64 → F64 → F64
  | .val a, .val b => .val (a + b)
  | .nan, _ => .nan
  | _, .nan => .nan
  | .inf, .neginf => .nan
  | .neginf, .inf => .nan
  | .inf, _ => .inf
  | _, .inf => .inf
  | .neginf, _ => .neginf
  | _, .neginf => .neginf

/-- IEEE multiplication on the model: `0 * inf = NaN`, signs propagate. -/
def F64.mul : F64 → F64 → F64
  | .val a, .val b => .val (a * b)
  | .nan, _ => .nan
  | _, .nan => .nan
  | .inf, .val b => if b = 0 then .nan else if 0 < b then .inf else .neginf
  | .val a, .inf => if a = 0 then .nan else if 0 < a then .inf else .neginf
  | .neginf, .val b => if b = 0 then .nan else if 0 < b then .neginf else .inf
  | .val a, .neginf => if a = 0 then .nan else if 0 < a then .neginf else .inf
  | .inf, .inf => .inf
  | .inf, .neginf => .neginf
  | .neginf, .inf => .neginf
  | .neginf, .neginf => .inf

/-- IEEE division on the model: `0/0 = NaN`, `x/0 = ±inf` for `x ≠ 0`. -/
def F64.div : F64 → F64 → F64
  | .val a, .val b =>
      if b = 0 then (if a = 0 then .nan else if 0 < a then .inf else .neginf)
      else .val (a / b)
  | .nan, _ => .nan
  | _, .nan => .nan
  | .inf, .inf => .nan
  | .inf, .neginf => .nan
  | .neginf, .inf => .nan
  | .neginf, .neginf => .nan
  | .inf, .val b => if 0 ≤ b then .inf else .neginf
  | .neginf, .val b => if 0 ≤ b then .neginf else .inf
  | .val _, .inf => .val 0
  | .val _, .neginf => .val 0

/-- Modelled from the spec: Rust's `format!("{:.1}", x)` floating formatter is
external (std).  On exact rationals it renders one decimal digit after
round-to-nearest; `NaN`/`inf` render as Rust prints them.  Theorems evaluate
it only at points where the source's double is exact, so tie-breaking
conventions are irrelevant. -/
def fmtDec1 : F64 → String
  | .val q =>
      let n : Int := ⌊q * 10 + 1 / 2⌋
      toString (n / 10) ++ "." ++ toString (n % 10)
  | .nan => "NaN"
  | .inf => "inf"
  | .neginf => "-inf"

/-- Two-digit zero padding for the fractional part of `fmtDec2`. -/
def pad2 (n : Int) : String :=
  if n < 10 then "0" ++ toString n else toString n

/-- Modelled from the spec: Rust's `format!("{:.2}", x)`, as `fmtDec1` but
with two decimal digits. -/
def fmtDec2 : F64 → String
  | .val q =>
      let n : Int := ⌊q * 100 + 1 / 2⌋
      toString (n / 100) ++ "." ++ pad2 (n % 100)
  | .nan => "NaN"
  | .inf => "inf"
  | .neginf => "-inf"

/-- Modelled from the spec: Rust's `f64` `Display` (`to_string`) is external
std formatting; rendered here as the exact rational's string.  No theorem
depends on its output. -/
def f64Display : F64 → String
  | .val q => toString q
  | .nan => "NaN"
  | .inf => "inf"
  | .neginf => "-inf"

/-- Modelled from the spec: `pretty_bytes::converter::convert` is an external
crate producing a "standard human-readable converter (e.g., 1.2 GB)"
(spec section 4.2); modelled as repeated division by 1000 over unit names.
No theorem depends on its output. -/
def convertAux : ℚ → List String → String
  | q, [] => fmtDec1 (.val q)
  | q, [u] => fmtDec1 (.val q) ++ " " ++ u
  | q, u :: us => if q < 1000 then fmtDec1 (.val q) ++ " " ++ u else convertAux (q / 1000) us

/-- Modelled from the spec: entry point of the byte-size converter. -/
def convert (q : ℚ) : String :=
  convertAux q ["B", "kB", "MB", "GB", "TB", "PB"]

/-- Modelled from the spec: `chrono`'s strftime-style `DateTime::format` is an
external library formatter (out of scope, spec section 1); rendered as an
abstract stand-in.  No theorem depends on its output. -/
def chronoFormat (t : Int) (pattern : String) : String :=
  pattern ++ ":" ++ toString t

/-- config.rs `ModuleType`: the nine configured module kinds. -/
inductive ModuleType where
  | Static
  | Dynamic
  | CPU
  | Disk
  | Memory
  | Load
  | Time
  | Music
  | Command
deriving DecidableEq, BEq

/-- collectors.rs `CollectionType` exactly as it stands in src: six variants
(`Static`, `CPU`, `Disk`, `Memory`, `Load`, `Time`).  The source comment
"every edit to this must mirror a ModuleType" notwithstanding, the variants
`Dynamic`, `Music` and `Command` of `ModuleType` have no counterpart here. -/
inductive CollectionType where
  | Static
  | CPU (count : Nat) (usage : F64)
  | Disk (total : Nat) (usage : Nat)
  | Memory (total : Nat) (usage : Nat) (swap_total : Nat) (swap_usage : Nat)
  | Load (one : F64) (five : F64) (fifteen : F64)
  | Time (t : Int)
deriving DecidableEq

/-- config.rs `impl From<CollectionType> for ModuleType`.  The source match
also has arms for `CollectionType::Dynamic(..)`, `CollectionType::Music{..}`
and `CollectionType::Command(..)`, but no such constructors exist in
collectors.rs's `CollectionType`, so only the six translatable arms appear. -/
def ModuleType.fromCollection : CollectionType → ModuleType
  | .Static => .Static
  | .CPU _ _ => .CPU
  | .Disk _ _ => .Disk
  | .Memory _ _ _ _ => .Memory
  | .Load _ _ _ => .Load
  | .Time _ => .Time

/-- The set of `ModuleType` variants that do have a `CollectionType` mirror
in collectors.rs. -/
def mirroredTypes : List ModuleType :=
  [.Static, .CPU, .Disk, .Memory, .Load, .Time]

/-- config.rs `ConfigItem`: one module's static configuration plus the
mutable scheduling state `last_updated`.  `urgency` is a triple of `u8`
thresholds (modelled as `Nat`), `update_interval` a `FancyDuration`
(modelled as `Int` milliseconds), `last_updated` a timestamp (`Int`). -/
structure ConfigItem where
  name : String
  typ : ModuleType
  value : Option String
  format : Option String
  urgency : Option (Nat × Nat × Nat)
  urgency_colors : Option (String × String × String)
  icon : Option String
  update_interval : Option Int
  last_updated : Int
deriving DecidableEq

/-- collectors.rs `Collection`: one realized sample. -/
structure Collection where
  name : String
  value : Option String
  format : Option String
  collection_type : CollectionType
deriving DecidableEq

/-- Modelled from the spec: formatter.rs (`Format`, `Rules`) is not under
src/; per spec section 4.1 a `Format` is a template string plus an ordered
list of `(token, replacement)` pairs. -/
structure Format where
  template : String
  rules : List (String × String)
deriving DecidableEq

/-- Modelled from the spec: `Rules::default()` — the empty rule list. -/
def Rules.defaultRules : List (String × String) := []

/-- Modelled from the spec (section 4.1): `Format::format` replaces every
literal occurrence of each token in the template with its replacement,
left-to-right over the token list. -/
def Format.format (f : Format) : String :=
  f.rules.foldl (fun acc r => acc.replace r.1 r.2) f.template

/-- collectors.rs `Collection::get_formatter`.  The `Static` arm calls
`self.value.clone().unwrap()`: the panic on `None` is modelled by `Option`
(`none` = panic), every other arm is total. -/
def Collection.get_formatter (c : Collection) : Option Format :=
  match c.collection_type with
  | .Static => c.value.map (fun v => { template := v, rules := Rules.defaultRules })
  | .Time t =>
      some { template := chronoFormat t (c.format.getD "%m/%d %H:%M")
             rules := Rules.defaultRules }
  | .Load one five fifteen =>
      some { template := c.format.getD "%1, %5, %15"
             rules := [("%1", f64Display one), ("%5", f64Display five),
                       ("%15", f64Display fifteen)] }
  | .CPU count usage =>
      some { template := c.format.getD "cpus: %count, usage: %usage"
             rules := [("%count", toString count), ("%usage", fmtDec2 usage)] }
  | .Memory total usage swap_total swap_usage =>
      some { template := c.format.getD "total: %total, usage: %usage"
             rules := [("%total", convert (total : ℚ)),
                       ("%usage", convert (usage : ℚ)),
                       ("%swap_total", convert (swap_total : ℚ)),
                       ("%swap_usage", convert (swap_usage : ℚ)),
                       ("%pct",
                        fmtDec1 (F64.mul (F64.div (.val (usage : ℚ)) (.val (total : ℚ)))
                          (.val 100))),
                       ("%pct_swap",
                        fmtDec1 (F64.mul
                          (F64.div (.val (swap_usage : ℚ)) (.val (swap_total : ℚ)))
                          (.val 100)))] }
  | .Disk total usage =>
      some { template := c.format.getD "total: %total, usage: %usage"
             rules := [("%total", convert (total : ℚ)),
                       ("%usage", convert (usage : ℚ)),
                       ("%pct",
                        fmtDec1 (F64.mul (F64.div (.val (usage : ℚ)) (.val (total : ℚ)))
                          (.val 100)))] }

/-- Modelled from the spec: bar.rs's `Block` is not under src/.  Spec
sections 3 and 6 give the display block fields: `name`, rendered
`full_text`, urgency metadata and icon; `Block::default()` leaves every
field empty. -/
structure Block where
  full_text : String := ""
  name : Option String := none
  urgency : Option (Nat × Nat × Nat) := none
  icon : Option String := none
deriving DecidableEq

/-- collectors.rs `Collection::to_block`: start from `Block::default()`,
then assign `full_text` and `name` (propagating `get_formatter`'s panic
point as `none`). -/
def Collection.to_block (c : Collection) : Option Block :=
  c.get_formatter.map (fun f => { full_text := f.format, name := some c.name })

/-- The rendered text of a collection: `get_formatter` then `format`. -/
def Collection.render (c : Collection) : Option String :=
  c.get_formatter.map Format.format

/-- collectors.rs `collect_static`: unconditionally sends one `Collection`
carrying the configured value. -/
def collect_static (item : ConfigItem) : List Collection × Except String Unit :=
  ([{ name := item.name, value := item.value, format := item.format
      collection_type := .Static }], .ok ())

/-- collectors.rs `collect_time`: samples the clock (passed in as `now`)
and sends one `Collection`. -/
def collect_time (now : Int) (item : ConfigItem) : List Collection × Except String Unit :=
  ([{ name := item.name, value := item.value, format := item.format
      collection_type := .Time now }], .ok ())

/-- collectors.rs `collect_load`: the provider's answer
(`mprober_lib::load_average::get_load_average`) is the first argument; a
provider error propagates without sending. -/
def collect_load (avg : Except String (F64 × F64 × F64)) (item : ConfigItem) :
    List Collection × Except String Unit :=
  match avg with
  | .error e => ([], .error e)
  | .ok a =>
      ([{ name := item.name, value := item.value, format := item.format
          collection_type := .Load a.1 a.2.1 a.2.2 }], .ok ())

/-- collectors.rs `collect_cpu`: the provider's per-core utilization list is
the first argument; on success the source folds the samples, divides by the
count and scales by 100. -/
def collect_cpu (util : Except String (List F64)) (item : ConfigItem) :
    List Collection × Except String Unit :=
  match util with
  | .error e => ([], .error e)
  | .ok avg =>
      let count := avg.length
      let mean := F64.div (avg.foldl (fun acc x => F64.add x acc) (F64.val 0))
        (F64.val (count : ℚ))
      ([{ name := item.name, value := item.value, format := item.format
          collection_type := .CPU count (F64.mul mean (F64.val 100)) }], .ok ())

/-- mprober_lib memory provider answer: total/used for RAM and swap. -/
structure MemPair where
  total : Nat
  used : Nat
deriving DecidableEq

/-- mprober_lib `memory::free()` answer shape. -/
structure MemoryStats where
  mem : MemPair
  swap : MemPair
deriving DecidableEq

/-- collectors.rs `collect_memory`: provider answer as first argument. -/
def collect_memory (free : Except String MemoryStats) (item : ConfigItem) :
    List Collection × Except String Unit :=
  match free with
  | .error e => ([], .error e)
  | .ok m =>
      ([{ name := item.name, value := item.value, format := item.format
          collection_type := .Memory m.mem.total m.mem.used m.swap.total m.swap.used }],
       .ok ())

/-- mprober_lib `volume::Volume`: mount points plus size/used counters. -/
structure Volume where
  points : List String
  size : Nat
  used : Nat
deriving DecidableEq

/-- collectors.rs `collect_disk`'s search loop: walk the volumes in order and
stop at the first whose mount-point set contains the requested path. -/
def findVolume : List Volume → String → Option Volume
  | [], _ => none
  | vol :: rest, value =>
      if vol.points.contains value then some vol else findVolume rest value

/-- collectors.rs `collect_disk`: requires `value`; provider volume listing as
first argument; sends the first matching volume's size/used or fails without
sending. -/
def collect_disk (vols : Except String (List Volume)) (item : ConfigItem) :
    List Collection × Except String Unit :=
  match item.value with
  | some value =>
      match vols with
      | .error e => ([], .error e)
      | .ok vs =>
          match findVolume vs value with
          | some target =>
              ([{ name := item.name, value := some value, format := item.format
                  collection_type := .Disk target.size target.used }], .ok ())
          | none => ([], .error "Volume could not be found")
  | none => ([], .error "Value must be provided and must point at a mount point")

/-- Single-shot contract of a collector invocation, as a boolean: at most one
`Collection` sent; `Ok` exactly when one was sent; `Err` only with nothing
sent. -/
def singleShotB (out : List Collection × Except String Unit) : Bool :=
  decide (out.1.length ≤ 1) &&
    (match out.2 with
     | .ok _ => out.1.length == 1
     | .error _ => out.1.isEmpty)

/-- A collector task handed to `tokio::spawn` by the scheduler: the collector
kind it will run and the configuration snapshot (`self.clone()`, taken before
`last_updated` is stamped) it was given. -/
structure SpawnedTask where
  kind : ModuleType
  item : ConfigItem
deriving DecidableEq

/-- config.rs free function `spawn`: await the spawned collector future and
forward its `Result` onto the shared outcome channel.  The first component is
the list of messages sent on the outcome channel, the second the wrapper's
own return value. -/
def spawn_wrapper (taskResult : Except String Unit) :
    List (Except String Unit) × Except String Unit :=
  ([taskResult], .ok ())

/-- The dispatch condition of `ConfigItem::launch_collector`, verbatim:
`(self.update_interval.is_some() && self.last_updated + interval < now)
 || self.update_interval.is_none()`. -/
def dispatchDue (item : ConfigItem) (now : Int) : Bool :=
  (item.update_interval.isSome &&
    decide (item.last_updated + item.update_interval.getD 0 < now)) ||
  item.update_interval.isNone

deriving instance DecidableEq for Except

/-- Result of one `ConfigItem::launch_collector` call: the item afterwards
(`self`), the task spawned during the call (if any), and the function's
return value. -/
structure LaunchOutcome where
  item : ConfigItem
  spawned : Option SpawnedTask
  result : Except String Unit
deriving DecidableEq

/-- config.rs `ConfigItem::launch_collector`.  The two clock reads of the
source (in the condition and at the stamp) are modelled as the single
instant `now`.  When due, the source clones `self` (before stamping), spawns
the collector matching `self.typ` — except that a `Static` item without a
`value` returns `Err` at once, spawning nothing and leaving `last_updated`
unchanged — and then stamps `self.last_updated = now`.  The collectors
`collect_dynamic`, `collect_music` and `collect_command` referenced by the
source are absent from src's collectors.rs; the task records only the kind
and the snapshot. -/
def ConfigItem.launch_collector (item : ConfigItem) (now : Int) : LaunchOutcome :=
  if dispatchDue item now then
    match item.typ with
    | .Static =>
        if item.value.isSome then
          { item := { item with last_updated := now }
            spawned := some { kind := .Static, item := item }
            result := .ok () }
        else
          { item := item, spawned := none
            result := .error ("Static block \x27" ++ item.name ++ "\x27 must have a value") }
    | .Dynamic =>
        { item := { item with last_updated := now }
          spawned := some { kind := .Dynamic, item := item }, result := .ok () }
    | .Time =>
        { item := { item with last_updated := now }
          spawned := some { kind := .Time, item := item }, result := .ok () }
    | .Load =>
        { item := { item with last_updated := now }
          spawned := some { kind := .Load, item := item }, result := .ok () }
    | .CPU =>
        { item := { item with last_updated := now }
          spawned := some { kind := .CPU, item := item }, result := .ok () }
    | .Memory =>
        { item := { item with last_updated := now }
          spawned := some { kind := .Memory, item := item }, result := .ok () }
    | .Disk =>
        { item := { item with last_updated := now }
          spawned := some { kind := .Disk, item := item }, result := .ok () }
    | .Music =>
        { item := { item with last_updated := now }
          spawned := some { kind := .Music, item := item }, result := .ok () }
    | .Command =>
        { item := { item with last_updated := now }
          spawned := some { kind := .Command, item := item }, result := .ok () }
  else
    { item := item, spawned := none, result := .ok () }

/-- config.rs `ConfigPage::launch_collectors`' loop body over a list of
items: each item's `launch_collector` is awaited and `?`-propagated, so an
`Err` stops the iteration with the remaining items untouched.  Returns the
items afterwards, all tasks spawned, and the propagated result. -/
def launchItems : List ConfigItem → Int →
    List ConfigItem × List SpawnedTask × Except String Unit
  | [], _ => ([], [], .ok ())
  | i :: rest, now =>
      let o := i.launch_collector now
      match o.result with
      | .error e => (o.item :: rest, o.spawned.toList, .error e)
      | .ok _ =>
          let r := launchItems rest now
          (o.item :: r.1, o.spawned.toList ++ r.2.1, r.2.2)

/-- config.rs `ConfigPage`: a page is a sequence of items. -/
structure ConfigPage where
  items : List ConfigItem
deriving DecidableEq

/-- config.rs `ConfigPage::launch_collectors`. -/
def ConfigPage.launch_collectors (p : ConfigPage) (now : Int) :
    ConfigPage × List SpawnedTask × Except String Unit :=
  let r := launchItems p.items now
  ({ items := r.1 }, r.2.1, r.2.2)

/-- config.rs `Config`: pages plus the optional global refresh interval. -/
structure Config where
  pages : List ConfigPage
  update_interval : Option Int
deriving DecidableEq

/-- config.rs `Config::launch_collectors`' loop over the pages, with the same
`?` propagation as the per-page loop. -/
def launchPages : List ConfigPage → Int →
    List ConfigPage × List SpawnedTask × Except String Unit
  | [], _ => ([], [], .ok ())
  | p :: rest, now =>
      let o := p.launch_collectors now
      match o.2.2 with
      | .error e => (o.1 :: rest, o.2.1, .error e)
      | .ok _ =>
          let r := launchPages rest now
          (o.1 :: r.1, o.2.1 ++ r.2.1, r.2.2)

/-- config.rs `Config::launch_collectors`. -/
def Config.launch_collectors (c : Config) (now : Int) :
    Config × List SpawnedTask × Except String Unit :=
  let r := launchPages c.pages now
  ({ c with pages := r.1 }, r.2.1, r.2.2)

/-- `chrono::Duration::seconds` in the model's millisecond unit. -/
def Duration.seconds (n : Int) : Int := 1000 * n

/-- config.rs `Config::update_interval()`: the configured global interval, or
one second when absent. -/
def Config.updateInterval (c : Config) : Int :=
  (c.update_interval.getD (Duration.seconds 1))

/-- The scheduling state of one item across successive scheduler passes at
the given instants (each pass runs `launch_collector` once). -/
def runCalls (item : ConfigItem) : List Int → ConfigItem
  | [] => item
  | t :: ts => runCalls ((item.launch_collector t).item) ts

/-- C1: the variant set of `CollectionType` does NOT mirror `ModuleType`:
the range of the conversion `ModuleType::from(CollectionType)` is contained
in the six mirrored kinds, and `Dynamic`, `Music` and `Command` are outside
it, so the mapping on variants is not a bijection (not total on the
`ModuleType` side). -/
theorem fromCollection_not_bijective :
    (∀ c : CollectionType, mirroredTypes.contains (ModuleType.fromCollection c) = true) ∧
    mirroredTypes.contains ModuleType.Dynamic = false ∧
    mirroredTypes.contains ModuleType.Music = false ∧
    mirroredTypes.contains ModuleType.Command = false :=
  ⟨fun c => by cases c <;> rfl, rfl, rfl, rfl⟩

/-- C10: `Config::update_interval()` returns exactly one second when the
top-level interval is omitted, and the configured duration unchanged when it
is present. -/
theorem config_updateInterval_default :
    ∀ pages : List ConfigPage,
      Config.updateInterval { pages := pages, update_interval := none } =
        Duration.seconds 1 ∧
      ∀ d : Int,
        Config.updateInterval { pages := pages, update_interval := some d } = d :=
  fun _ => ⟨rfl, fun _ => rfl⟩

/-- C6: every collector in src's collectors.rs is single-shot: per
invocation it sends at most one `Collection`, returns `Ok` exactly when one
was sent, and sends nothing whenever it returns `Err` (quantified over every
configuration item and every provider answer). -/
theorem collectors_single_shot :
    (∀ it, singleShotB (collect_static it) = true) ∧
    (∀ t it, singleShotB (collect_time t it) = true) ∧
    (∀ avg it, singleShotB (collect_load avg it) = true) ∧
    (∀ util it, singleShotB (collect_cpu util it) = true) ∧
    (∀ free it, singleShotB (collect_memory free it) = true) ∧
    (∀ vols it, singleShotB (collect_disk vols it) = true) := by
  refine ⟨fun it => rfl, fun t it => rfl, fun avg it => ?_, fun util it => ?_,
    fun free it => ?_, fun vols it => ?_⟩
  · rcases avg with e | a <;> rfl
  · rcases util with e | a <;> rfl
  · rcases free with e | a <;> rfl
  · rcases hv : it.value with _ | s
    · simp [collect_disk, hv, singleShotB]
    · rcases vols with e | vs
      · simp [collect_disk, hv, singleShotB]
      · rcases hf : findVolume vs s with _ | tgt <;>
          simp [collect_disk, hv, hf, singleShotB]

/-- A concrete `Memory` sample: the spec's example
`Memory{total:8_000_000_000, usage:4_000_000_000, swap_total:0, swap_usage:0}`. -/
def memCollection : Collection :=
  { name := "mem", value := none, format := none
    collection_type := .Memory 8000000000 4000000000 0 0 }

/-- C8: on the spec's example, the memory rules render `%pct` as `"50.0"` as
claimed, but `%pct_swap` with `swap_total = 0` is an unguarded float
division `0.0 / 0.0` and renders as `"NaN"` — not a defined, documented
policy. -/
theorem memory_pct_rendering :
    (memCollection.get_formatter).map
        (fun f => (f.rules.lookup "%pct", f.rules.lookup "%pct_swap")) =
      some (some "50.0", some "NaN") := by
  have h1 : F64.div (.val ((4000000000 : Nat) : ℚ)) (.val ((8000000000 : Nat) : ℚ)) =
      .val (1 / 2) := by
    rw [F64.div]; norm_num
  have h2 : F64.mul (.val ((1 : ℚ) / 2)) (.val 100) = .val 50 := by
    rw [F64.mul]; norm_num
  have h3 : fmtDec1 (.val 50) = "50.0" := by
    rw [fmtDec1]; norm_num; rfl
  have h0 : F64.div (.val ((0 : Nat) : ℚ)) (.val ((0 : Nat) : ℚ)) = .nan := by
    rw [F64.div]; norm_num
  have h4 : fmtDec1 (F64.mul F64.nan (F64.val 100)) = "NaN" := rfl
  simp only [memCollection, Collection.get_formatter, h1, h2, h3, h0, h4, Option.map_some]
  simp [List.lookup]

/-- C2 (amended): for an item that is not a `Static` module missing its
`value`, `launch_collector` spawns its single collector task exactly when no
update interval is configured or `now` is STRICTLY past
`last_updated + update_interval` (the source compares with `<`, so a check at
exactly `last_updated + update_interval` performs no dispatch). -/
theorem launch_collector_dispatch_iff :
    ∀ (item : ConfigItem) (now : Int),
      (item.typ = ModuleType.Static → item.value.isSome = true) →
      ((item.launch_collector now).spawned.isSome = true ↔
        item.update_interval = none ∨
          ∃ d, item.update_interval = some d ∧ item.last_updated + d < now) := by
  intro item now hsv
  constructor
  · intro h
    by_cases hd : dispatchDue item now
    · rcases hu : item.update_interval with _ | d
      · exact Or.inl rfl
      · exact Or.inr ⟨d, rfl, by simpa [dispatchDue, hu] using hd⟩
    · simp [ConfigItem.launch_collector, hd] at h
  · intro h
    have hd : dispatchDue item now = true := by
      rcases h with h | ⟨d, hd, hlt⟩
      · simp [dispatchDue, h]
      · simp [dispatchDue, hd, hlt]
    cases ht : item.typ
    · simp [ConfigItem.launch_collector, hd, ht, hsv ht]
    all_goals simp [ConfigItem.launch_collector, hd, ht]

/-- A `Time` module with a 5-unit interval last refreshed at instant 0. -/
def boundaryItem : ConfigItem :=
  { name := "t", typ := .Time, value := none, format := none, urgency := none
    urgency_colors := none, icon := none, update_interval := some 5
    last_updated := 0 }

/-- C2 counterexample: at `now = 5 = last_updated + update_interval` the
claim predicts a dispatch (`now ≥ last_updated + interval`), but the code's
strict comparison spawns nothing. -/
theorem launch_collector_boundary_no_dispatch :
    (boundaryItem.launch_collector 5).spawned = none ∧
    boundaryItem.last_updated + 5 ≤ (5 : Int) ∧
    boundaryItem.update_interval = some 5 := by
  decide

/-- A `Time` module with no configured interval (always refresh). -/
def alwaysItem : ConfigItem :=
  { name := "clock", typ := .Time, value := none, format := none
    urgency := none, urgency_colors := none, icon := none
    update_interval := none, last_updated := 0 }

/-- Witness for C2's theorem at a concrete input: with no interval
configured, a check at instant 7 dispatches. -/
theorem launch_collector_dispatch_iff_witness :
    (alwaysItem.launch_collector 7).spawned.isSome = true :=
  (launch_collector_dispatch_iff alwaysItem 7 (fun h => nomatch h)).mpr (Or.inl rfl)

/-- After one `launch_collector` call, `last_updated` is either untouched or
equal to the call instant. -/
lemma launch_last_cases (item : ConfigItem) (now : Int) :
    (item.launch_collector now).item.last_updated = item.last_updated ∨
    (item.launch_collector now).item.last_updated = now := by
  by_cases hd : dispatchDue item now
  · cases ht : item.typ <;> simp [ConfigItem.launch_collector, hd, ht]
    by_cases hv : item.value.isSome <;> simp [hv]
  · simp [ConfigItem.launch_collector, hd]

/-- A `(· ≤ ·)` chain survives lowering its head. -/
lemma chain_le_head {a b : Int} {l : List Int}
    (h : List.Chain (· ≤ ·) a l) (hba : b ≤ a) : List.Chain (· ≤ ·) b l := by
  cases h with
  | nil => exact List.Chain.nil
  | cons hab hl => exact List.Chain.cons (le_trans hba hab) hl

/-- Across a non-decreasing sequence of scheduler passes, `last_updated`
never decreases. -/
lemma runCalls_mono :
    ∀ (times : List Int) (item : ConfigItem),
      List.Chain (· ≤ ·) item.last_updated times →
      item.last_updated ≤ (runCalls item times).last_updated := by
  intro times
  induction times with
  | nil => intro item _; simp [runCalls]
  | cons t ts ih =>
      intro item h
      cases h with
      | cons hle hchain =>
        have hcases := launch_last_cases item t
        have h1 : item.last_updated ≤ (item.launch_collector t).item.last_updated := by
          rcases hcases with h | h
          · rw [h]
          · rw [h]; exact hle
        have h2 : (item.launch_collector t).item.last_updated ≤ t := by
          rcases hcases with h | h
          · rw [h]; exact hle
          · rw [h]
        have h3 := ih ((item.launch_collector t).item) (chain_le_head hchain h2)
        calc item.last_updated
            ≤ (item.launch_collector t).item.last_updated := h1
          _ ≤ (runCalls (item.launch_collector t).item ts).last_updated := h3
          _ = (runCalls item (t :: ts)).last_updated := by rw [runCalls]

/-- C7: `last_updated` is unchanged by a call that spawns nothing, is set to
the dispatch instant (not the task's completion) exactly when a task is
spawned, and is monotonically non-decreasing across any sequence of calls at
non-decreasing instants. -/
theorem last_updated_update_policy :
    ∀ (item : ConfigItem) (now : Int),
      ((item.launch_collector now).spawned = none →
        (item.launch_collector now).item.last_updated = item.last_updated) ∧
      (∀ tk, (item.launch_collector now).spawned = some tk →
        (item.launch_collector now).item.last_updated = now) ∧
      (∀ times, List.Chain (· ≤ ·) item.last_updated times →
        item.last_updated ≤ (runCalls item times).last_updated) := by
  intro item now
  refine ⟨?_, ?_, fun times h => runCalls_mono times item h⟩
  · intro hnone
    by_cases hd : dispatchDue item now
    · cases ht : item.typ <;>
        simp [ConfigItem.launch_collector, hd, ht] at hnone ⊢
      by_cases hv : item.value.isSome <;> simp [hv] at hnone ⊢
    · simp [ConfigItem.launch_collector, hd]
  · intro tk hsome
    by_cases hd : dispatchDue item now
    · cases ht : item.typ <;>
        simp [ConfigItem.launch_collector, hd, ht] at hsome ⊢
      by_cases hv : item.value.isSome <;> simp [hv] at hsome ⊢
    · simp [ConfigItem.launch_collector, hd] at hsome

/-- Witness for C7's theorem at concrete inputs: a dispatching call stamps
`last_updated` with the call instant, and a run at instants 1, 2 never
lowers it. -/
theorem last_updated_update_policy_witness :
    (alwaysItem.launch_collector 4).item.last_updated = 4 ∧
    alwaysItem.last_updated ≤ (runCalls alwaysItem [1, 2]).last_updated :=
  ⟨(last_updated_update_policy alwaysItem 4).2.1
      { kind := .Time, item := alwaysItem } rfl,
   (last_updated_update_policy alwaysItem 4).2.2 [1, 2]
      (List.Chain.cons (by decide) (List.Chain.cons (by decide) List.Chain.nil))⟩

/-- C4: a `Static` item without a `value` fails fast at dispatch time with
the configuration error, spawning no task and leaving the item untouched
(so no `Collection` is ever produced for it); with `value = Some v`,
`collect_static` sends exactly one `Collection` of type `Static` carrying
`Some v`, and its rendered text is `v`. -/
theorem static_collector_contract :
    ∀ (item : ConfigItem) (now : Int) (v : String),
      (item.typ = ModuleType.Static → item.value = none → dispatchDue item now = true →
        item.launch_collector now =
          { item := item, spawned := none
            result := .error ("Static block \x27" ++ item.name ++ "\x27 must have a value") }) ∧
      (item.value = some v →
        collect_static item =
          ([{ name := item.name, value := some v, format := item.format
              collection_type := .Static }], .ok ()) ∧
        Collection.render
          { name := item.name, value := some v, format := item.format
            collection_type := .Static } = some v) := by
  intro item now v
  constructor
  · intro ht hv hd
    simp [ConfigItem.launch_collector, hd, ht, hv]
  · intro hv
    exact ⟨by simp [collect_static, hv], rfl⟩

/-- A `Static` module missing its value. -/
def staticNoneItem : ConfigItem :=
  { name := "s0", typ := .Static, value := none, format := none, urgency := none
    urgency_colors := none, icon := none, update_interval := none
    last_updated := 0 }

/-- A `Static` module with value `"x"`. -/
def staticXItem : ConfigItem :=
  { name := "sx", typ := .Static, value := some "x", format := none
    urgency := none, urgency_colors := none, icon := none
    update_interval := none, last_updated := 0 }

/-- Witness for C4's theorem at concrete inputs. -/
theorem static_collector_contract_witness :
    staticNoneItem.launch_collector 3 =
      { item := staticNoneItem, spawned := none
        result := .error ("Static block \x27" ++ staticNoneItem.name ++
          "\x27 must have a value") } ∧
    Collection.render
      { name := staticXItem.name, value := some "x", format := staticXItem.format
        collection_type := .Static } = some "x" :=
  ⟨(static_collector_contract staticNoneItem 3 "x").1 rfl rfl (by decide),
   ((static_collector_contract staticXItem 3 "x").2 rfl).2⟩

/-- The source's first-match loop over volumes is `List.find?` on the
mount-point membership test. -/
lemma findVolume_eq_find? (vols : List Volume) (v : String) :
    findVolume vols v = vols.find? (fun w => w.points.contains v) := by
  induction vols with
  | nil => rfl
  | cons w ws ih =>
      by_cases h : v ∈ w.points <;>
        simp [findVolume, List.find?_cons, h, ih]

/-- C5: `collect_disk` with `value = Some v` sends exactly one `Collection`
carrying `Disk{total, usage}` of the first volume whose mount-point set
contains `v`; with no matching volume it fails without sending, and with
`value = None` it fails without sending. -/
theorem collect_disk_contract :
    ∀ (vols : List Volume) (item : ConfigItem),
      (∀ v vol, item.value = some v →
        vols.find? (fun w => w.points.contains v) = some vol →
        collect_disk (.ok vols) item =
          ([{ name := item.name, value := some v, format := item.format
              collection_type := .Disk vol.size vol.used }], .ok ())) ∧
      (∀ v, item.value = some v →
        vols.find? (fun w => w.points.contains v) = none →
        collect_disk (.ok vols) item = ([], .error "Volume could not be found")) ∧
      (item.value = none →
        collect_disk (.ok vols) item =
          ([], .error "Value must be provided and must point at a mount point")) := by
  intro vols item
  refine ⟨?_, ?_, ?_⟩
  · intro v vol hv hf
    rw [← findVolume_eq_find?] at hf
    simp [collect_disk, hv, hf]
  · intro v hv hf
    rw [← findVolume_eq_find?] at hf
    simp [collect_disk, hv, hf]
  · intro hv
    simp [collect_disk, hv]

/-- The spec's example volume: mounted at `/`, size 1000, used 250. -/
def rootVolume : Volume := { points := ["/"], size := 1000, used := 250 }

/-- A `Disk` module requesting mount point `/`. -/
def diskSlashItem : ConfigItem :=
  { name := "d", typ := .Disk, value := some "/", format := none, urgency := none
    urgency_colors := none, icon := none, update_interval := none
    last_updated := 0 }

/-- A `Disk` module requesting a mount point no volume has. -/
def diskBadItem : ConfigItem :=
  { name := "d", typ := .Disk, value := some "/nonexistent", format := none
    urgency := none, urgency_colors := none, icon := none
    update_interval := none, last_updated := 0 }

/-- A `Disk` module with no value. -/
def diskNoneItem : ConfigItem :=
  { name := "d", typ := .Disk, value := none, format := none, urgency := none
    urgency_colors := none, icon := none, update_interval := none
    last_updated := 0 }

/-- Witness for C5's theorem at the spec's example inputs. -/
theorem collect_disk_contract_witness :
    collect_disk (.ok [rootVolume]) diskSlashItem =
      ([{ name := diskSlashItem.name, value := some "/", format := diskSlashItem.format
          collection_type := .Disk rootVolume.size rootVolume.used }], .ok ()) ∧
    collect_disk (.ok [rootVolume]) diskBadItem =
      ([], .error "Volume could not be found") ∧
    collect_disk (.ok [rootVolume]) diskNoneItem =
      ([], .error "Value must be provided and must point at a mount point") :=
  ⟨(collect_disk_contract [rootVolume] diskSlashItem).1 "/" rootVolume rfl (by decide),
   (collect_disk_contract [rootVolume] diskBadItem).2.1 "/nonexistent" rfl (by decide),
   (collect_disk_contract [rootVolume] diskNoneItem).2.2 rfl⟩

/-- C9 (amended): `to_block` produces a block carrying the module's name and
the rendered `full_text`; the urgency and icon fields remain at
`Block::default()`'s values — a `Collection` does not carry them, so nothing
of the originating `ConfigItem`'s urgency or icon reaches the block. -/
theorem to_block_fields :
    ∀ (c : Collection) (b : Block), c.to_block = some b →
      b.name = some c.name ∧ b.urgency = none ∧ b.icon = none ∧
      ∃ f, c.get_formatter = some f ∧ b.full_text = f.format := by
  intro c b h
  rcases hf : c.get_formatter with _ | f
  · simp [Collection.to_block, hf] at h
  · rw [Collection.to_block, hf] at h
    simp only [Option.map_some', Option.some.injEq] at h
    subst h
    exact ⟨rfl, rfl, rfl, f, rfl, rfl⟩

/-- A `Static` sample for the `to_block` witness. -/
def helloCollection : Collection :=
  { name := "w", value := some "hello", format := none
    collection_type := .Static }

/-- Witness for C9's theorem at a concrete collection. -/
theorem to_block_fields_witness :
    ({ full_text := "hello", name := some "w" } : Block).name =
      some helloCollection.name ∧
    ({ full_text := "hello", name := some "w" } : Block).urgency = none ∧
    ({ full_text := "hello", name := some "w" } : Block).icon = none ∧
    ∃ f, helloCollection.get_formatter = some f ∧
      ({ full_text := "hello", name := some "w" } : Block).full_text = f.format :=
  to_block_fields helloCollection { full_text := "hello", name := some "w" } rfl

/-- A `Static` module configured with urgency thresholds and an icon. -/
def iconItem : ConfigItem :=
  { name := "w", typ := .Static, value := some "hello", format := none
    urgency := some (1, 2, 3), urgency_colors := none, icon := some "icn"
    update_interval := none, last_updated := 0 }

/-- C9 counterexample: the block produced from `iconItem`'s Static sample
carries neither the item's urgency nor its icon — both stay `none` in the
block although the originating item sets both. -/
theorem to_block_drops_metadata :
    ((collect_static iconItem).1.head?.bind Collection.to_block) =
      some { full_text := "hello", name := some "w" } ∧
    iconItem.icon = some "icn" ∧ iconItem.urgency = some (1, 2, 3) :=
  ⟨rfl, rfl, rfl⟩

/-- A call on an item that is not a value-less `Static` module returns `Ok`
and spawns exactly the task of its own kind when due. -/
lemma launch_collector_ok_of_wellformed (i : ConfigItem) (now : Int)
    (hi : i.typ = ModuleType.Static → i.value.isSome = true) :
    (i.launch_collector now).result = .ok () ∧
    (i.launch_collector now).spawned.toList =
      (if dispatchDue i now then
        [({ kind := i.typ, item := i } : SpawnedTask)] else []) := by
  by_cases hd : dispatchDue i now
  · cases ht : i.typ
    · simp [ConfigItem.launch_collector, hd, ht, hi ht]
    all_goals simp [ConfigItem.launch_collector, hd, ht]
  · simp [ConfigItem.launch_collector, hd]

/-- Over a page with no value-less `Static` module, the item loop returns
`Ok` and spawns exactly one task per due item, in order. -/
lemma launchItems_wellformed (items : List ConfigItem) (now : Int)
    (h : ∀ i ∈ items, i.typ = ModuleType.Static → i.value.isSome = true) :
    (launchItems items now).2.2 = .ok () ∧
    (launchItems items now).2.1 =
      (items.filter (fun i => dispatchDue i now)).map
        (fun i => ({ kind := i.typ, item := i } : SpawnedTask)) := by
  induction items with
  | nil => exact ⟨rfl, rfl⟩
  | cons i rest ih =>
      have hi := launch_collector_ok_of_wellformed i now
        (h i (List.mem_cons_self i rest))
      obtain ⟨h1, h2⟩ := ih (fun j hj => h j (List.mem_cons_of_mem i hj))
      constructor
      · simp only [launchItems, hi.1, h1]
      · simp only [launchItems, hi.1]
        rw [hi.2, h2, List.filter_cons]
        by_cases hd : dispatchDue i now <;> simp [hd]

/-- Over a config with no value-less `Static` module, the page loop returns
`Ok` and its task list is the concatenation of the pages' task lists. -/
lemma launchPages_wellformed (pages : List ConfigPage) (now : Int)
    (h : ∀ p ∈ pages, ∀ i ∈ p.items, i.typ = ModuleType.Static → i.value.isSome = true) :
    (launchPages pages now).2.2 = .ok () ∧
    (launchPages pages now).2.1 =
      (pages.map (fun p =>
        (p.items.filter (fun i => dispatchDue i now)).map
          (fun i => ({ kind := i.typ, item := i } : SpawnedTask)))).flatten := by
  induction pages with
  | nil => exact ⟨rfl, rfl⟩
  | cons p rest ih =>
      have hp := launchItems_wellformed p.items now
        (h p (List.mem_cons_self p rest))
      obtain ⟨h1, h2⟩ := ih (fun q hq => h q (List.mem_cons_of_mem p hq))
      constructor
      · simp only [launchPages, ConfigPage.launch_collectors, hp.1, h1]
      · simp only [launchPages, ConfigPage.launch_collectors, hp.1, List.map_cons,
          List.flatten_cons]
        rw [hp.2, h2]

/-- C3 (amended): collector-task outcomes never influence the tick — each
spawned task's `Result` is forwarded verbatim to the shared outcome channel
by the dispatch wrapper, and as long as no item is a value-less `Static`
module, the per-page and per-config iteration dispatches every due item of
every page and returns `Ok`.  A value-less `Static` module, however, makes
`launch_collector` return `Err`, which the `?` propagation turns into an
aborted tick (see the counterexample). -/
theorem launch_collectors_forwarding :
    (∀ (items : List ConfigItem) (now : Int),
      (∀ i ∈ items, i.typ = ModuleType.Static → i.value.isSome = true) →
      (launchItems items now).2.2 = .ok () ∧
      (launchItems items now).2.1 =
        (items.filter (fun i => dispatchDue i now)).map
          (fun i => ({ kind := i.typ, item := i } : SpawnedTask))) ∧
    (∀ r : Except String Unit, (spawn_wrapper r).1 = [r]) ∧
    (∀ (cfg : Config) (now : Int),
      (∀ p ∈ cfg.pages, ∀ i ∈ p.items,
        i.typ = ModuleType.Static → i.value.isSome = true) →
      (cfg.launch_collectors now).2.2 = .ok () ∧
      (cfg.launch_collectors now).2.1 =
        (cfg.pages.map (fun p =>
          (p.items.filter (fun i => dispatchDue i now)).map
            (fun i => ({ kind := i.typ, item := i } : SpawnedTask)))).flatten) := by
  refine ⟨fun items now h => launchItems_wellformed items now h, fun r => rfl,
    fun cfg now h => ?_⟩
  obtain ⟨h1, h2⟩ := launchPages_wellformed cfg.pages now h
  exact ⟨h1, h2⟩

/-- Witness for C3's theorem: a page of two well-formed modules dispatches
both and returns `Ok`, and the wrapper forwards a task failure verbatim. -/
theorem launch_collectors_forwarding_witness :
    (launchItems [alwaysItem, staticXItem] 9).2.2 = Except.ok () ∧
    (spawn_wrapper (Except.error "task failed")).1 = [Except.error "task failed"] :=
  ⟨(launch_collectors_forwarding.1 [alwaysItem, staticXItem] 9 (by decide)).1,
   launch_collectors_forwarding.2.1 (Except.error "task failed")⟩

/-- A value-less `Static` module placed before a clock module. -/
def badStaticItem : ConfigItem :=
  { name := "bad", typ := .Static, value := none, format := none, urgency := none
    urgency_colors := none, icon := none, update_interval := none
    last_updated := 0 }

/-- C3 counterexample: in the page `[badStaticItem, alwaysItem]` the Static
item's dispatch-time failure aborts the tick — the loop returns the error
and spawns no task at all, not even the clock's, although the clock alone
would dispatch; the abort propagates to `Config::launch_collectors`. -/
theorem static_failure_aborts_tick :
    (launchItems [badStaticItem, alwaysItem] 0).2.2 =
      .error ("Static block \x27bad\x27 must have a value") ∧
    (launchItems [badStaticItem, alwaysItem] 0).2.1 = [] ∧
    (launchItems [alwaysItem] 0).2.1 =
      [{ kind := ModuleType.Time, item := alwaysItem }] ∧
    (Config.launch_collectors
        { pages := [{ items := [badStaticItem, alwaysItem] }]
          update_interval := none } 0).2.2 =
      .error ("Static block \x27bad\x27 must have a value") := by
  decide
